import Mathlib

/-!
# Verification of the local_scrapper Reddit admission pipeline

Shallow embedding of the post admission pipeline, rate limiter, discovery
runner and store writer of the `local_scrapper` repository
(`reddit-scraper-local/src/scraper/RedditScraperLocal.ts`,
`reddit-scraper-local/src/utils/rateLimiter.ts`, the discovery runner and
`TimeWindow`), with theorems checking the natural-language specification
against the code.

JavaScript strings are modelled as Lean `String`; `toLowerCase` is modelled
by `Char.toLower` (the repository only manipulates ASCII identifiers),
timestamps are `Int` milliseconds, and optional / possibly-absent record
fields are `Option`.
-/

namespace LocalScrapper

/-! ## JavaScript string primitives -/

/-- Model of JavaScript `String.prototype.toLowerCase` (ASCII). -/
def jsToLower (s : String) : String := ⟨s.data.map Char.toLower⟩

/-- Characters treated as whitespace by `trim` / `\s`. -/
def wsp (c : Char) : Bool := c.isWhitespace

/-- Model of JavaScript `String.prototype.trim` on the character list. -/
def trimChars (l : List Char) : List Char :=
  ((l.dropWhile wsp).reverse.dropWhile wsp).reverse

/-- Model of JavaScript `String.prototype.trim`. -/
def jsTrim (s : String) : String := ⟨trimChars s.data⟩

/-- Model of JavaScript `String.prototype.includes` (contiguous substring). -/
def jsIncludes (s sub : String) : Bool :=
  (s.data.tails).any (fun t => sub.data.isPrefixOf t)

/-- `Char.toLower` is idempotent. -/
theorem char_toLower_idem (c : Char) : Char.toLower (Char.toLower c) = Char.toLower c := by
  by_cases h : c.toNat ≥ 65 ∧ c.toNat ≤ 90
  · have h1 : c.toLower = Char.ofNat (c.toNat + 32) := by
      unfold Char.toLower
      rw [if_pos h]
    have hval : (c.toNat + 32).isValidChar := Or.inl (by omega)
    have htn : (Char.ofNat (c.toNat + 32)).toNat = c.toNat + 32 := by
      rw [Char.ofNat, dif_pos hval]
      simp [Char.ofNatAux, Char.toNat, UInt32.toNat]
    rw [h1]
    conv_lhs => unfold Char.toLower
    rw [if_neg]
    rw [htn]
    omega
  · have h1 : c.toLower = c := by
      unfold Char.toLower
      rw [if_neg h]
    rw [h1, h1]

/-- Lowering a string twice is the same as lowering it once. -/
theorem jsToLower_idem (s : String) : jsToLower (jsToLower s) = jsToLower s := by
  unfold jsToLower
  congr 1
  rw [List.map_map]
  exact List.map_congr_left (fun a _ => char_toLower_idem a)

/-! ## Keyword normalization (`RedditScraperLocal.ts`, `normalizeKeyword` etc.) -/

/-- JavaScript `replace(/\s+/g, ' ')`: every maximal run of whitespace
collapses to a single space. The boolean records whether the previous
input character was whitespace (i.e. the run was already replaced). -/
def collapseWSAux : Bool → List Char → List Char
  | _, [] => []
  | prevWs, c :: cs =>
    if wsp c then
      if prevWs then collapseWSAux true cs
      else ' ' :: collapseWSAux true cs
    else c :: collapseWSAux false cs

/-- JavaScript `replace(/\s+/g, ' ')`. -/
def collapseWS (l : List Char) : List Char := collapseWSAux false l

/-- `replace(/[_-]/g, ' ')` on a single character. -/
def underscoreHyphenToSpace (c : Char) : Char :=
  if c = '_' ∨ c = '-' then ' ' else c

/-- `normalizeKeyword`: lowercase, trim, replace `_`/`-` by spaces, collapse
whitespace runs (in that order, as in the source). -/
def normalizeKeyword (keyword : String) : String :=
  ⟨collapseWS ((trimChars (keyword.data.map Char.toLower)).map underscoreHyphenToSpace)⟩

/-- `deduplicateKeywords`: normalize every keyword, keep first occurrences. -/
def deduplicateKeywords (keywords : List String) : List String :=
  go [] (keywords.map normalizeKeyword)
where
  go (seen : List String) : List String → List String
    | [] => []
    | kw :: rest =>
      if kw ∈ seen then go seen rest
      else kw :: go (kw :: seen) rest

/-- `cleanSubredditName`: strip a leading `r/` prefix (case-insensitive),
then trim. -/
def cleanSubredditName (subreddit : String) : String :=
  let l := subreddit.data
  let stripped :=
    match l with
    | a :: b :: rest => if a.toLower = 'r' ∧ b = '/' then rest else l
    | _ => l
  ⟨trimChars stripped⟩

/-- `normalizeSubreddit`: lowercase, trim, then strip a leading `r/`. -/
def normalizeSubreddit (subreddit : String) : String :=
  let t := trimChars (subreddit.data.map Char.toLower)
  match t with
  | 'r' :: '/' :: rest => ⟨rest⟩
  | _ => ⟨t⟩

/-! ## Raw posts and the admission pipeline -/

/-- A raw Reddit post record, with the fields `fetchSubredditNew` reads.
Fields that JavaScript may find absent are `Option`. -/
structure RawPost where
  id : String
  title : String
  selftext : Option String
  permalink : Option String
  subreddit : Option String
  author : Option String
  createdUtc : Int
  removedByCategory : Option String
  score : Int
  numComments : Int
deriving DecidableEq, Repr

/-- JavaScript truthiness of an optional string. -/
def truthy : Option String → Bool
  | none => false
  | some s => s ≠ ""

/-- The `metadata`-ish `raw` record the scraper attaches to each post. -/
structure RawMeta where
  score : Option Int := none
  numComments : Option Int := none
  subreddit : Option String := none
deriving DecidableEq, Repr

/-- The scraper's `NormalizedPost` (fields used by this repository). -/
structure NormalizedPost where
  id : String
  platform : String := "reddit"
  title : String
  content : String
  url : String
  author : Option String
  sourceContext : String
  createdAt : Int
  keywordsMatched : List String
  raw : RawMeta
deriving DecidableEq, Repr

/-- `TimeWindow`: a `[from, to]` range in epoch milliseconds. -/
structure Window where
  fromMs : Int
  toMs : Int
deriving DecidableEq, Repr

/-- `TimeWindow.isWithinWindow`: inclusive on both bounds. -/
def isWithinWindow (dateMs : Int) (w : Window) : Bool :=
  w.fromMs ≤ dateMs ∧ dateMs ≤ w.toMs

/-- Match of `/^\/r\/([^\/]+)\//` against a permalink: the path segment
after the leading `/r/`, which must be nonempty and followed by `/`. -/
def parsePermalinkSeg (permalink : String) : Option String :=
  match permalink.data with
  | '/' :: 'r' :: '/' :: rest =>
    match rest.takeWhile (fun c => c ≠ '/'), rest.dropWhile (fun c => c ≠ '/') with
    | [], _ => none
    | _, [] => none
    | seg, _ :: _ => some ⟨seg⟩
  | _ => none

/-- Result of `extractSubreddit`. -/
structure Extraction where
  subreddit : Option String
  isCrossPost : Bool
deriving DecidableEq, Repr

/-- `extractSubreddit`: the permalink is the canonical source; a present,
truthy `subreddit` field that disagrees (after normalization) marks a
cross-subreddit post. An empty normalized permalink segment is falsy in
JavaScript and is treated as unextractable. -/
def extractSubreddit (post : RawPost) : Extraction :=
  let permalinkSubreddit : Option String :=
    match post.permalink with
    | some pl =>
      match parsePermalinkSeg pl with
      | some seg => some (normalizeSubreddit seg)
      | none => none
    | none => none
  match permalinkSubreddit with
  | none => ⟨none, false⟩
  | some p =>
    if p = "" then ⟨none, false⟩
    else
      match post.subreddit with
      | some s =>
        if s ≠ "" then
          if normalizeSubreddit s ≠ p then ⟨none, true⟩ else ⟨some p, false⟩
        else ⟨some p, false⟩
      | none => ⟨some p, false⟩

/-- `extractAuthor`: `"[deleted]"` for a missing, empty or deleted author,
otherwise the literal author value. -/
def extractAuthor (post : RawPost) : String :=
  match post.author with
  | none => "[deleted]"
  | some a => if a = "" ∨ a = "[deleted]" then "[deleted]" else a

/-- JavaScript template-literal rendering of an optional string. -/
def optToStr : Option String → String
  | none => "undefined"
  | some s => s

/-- The exclusive, tagged outcome of processing one raw post in the
`fetchSubredditNew` loop. -/
inductive Outcome where
  | skipTimeWindow
  | skipDeleted
  | skipNoKeyword
  | skipNoSubreddit
  | skipCrossPost
  | emit (p : NormalizedPost)
deriving DecidableEq, Repr

/-- Whether an outcome emits a post. -/
def Outcome.isEmit : Outcome → Bool
  | .emit _ => true
  | _ => false

/-- The emitted post of an outcome, if any. -/
def Outcome.emitted : Outcome → Option NormalizedPost
  | .emit p => some p
  | _ => none

/-- The body of the `for` loop of `fetchSubredditNew` for one raw post:
time-window check, tombstone check, keyword check, canonical-subreddit
extraction, then construction of the `NormalizedPost`. -/
def processPost (keywords : List String) (w : Window) (post : RawPost) : Outcome :=
  let postDate := post.createdUtc * 1000
  if ¬ isWithinWindow postDate w then .skipTimeWindow
  else if post.selftext = some "[deleted]" ∨ post.title = "[deleted]"
      ∨ truthy post.removedByCategory then .skipDeleted
  else
    let titleLower := jsToLower post.title
    let keywordsMatched := keywords.filter (fun kw => jsIncludes titleLower (jsToLower kw))
    if keywordsMatched = [] then .skipNoKeyword
    else
      let extraction := extractSubreddit post
      match extraction.subreddit with
      | none => if extraction.isCrossPost then .skipCrossPost else .skipNoSubreddit
      | some extractedSubreddit =>
        .emit {
          id := post.id
          platform := "reddit"
          title := post.title
          content := (post.selftext.getD "")
          url := "https://reddit.com" ++ optToStr post.permalink
          author := some (extractAuthor post)
          sourceContext := "r/" ++ extractedSubreddit
          createdAt := postDate
          keywordsMatched := keywordsMatched
          raw := {
            score := some post.score
            numComments := some post.numComments
            subreddit := some extractedSubreddit } }

/-- The skip counters and collected posts of one `fetchSubredditNew` call. -/
structure FeedCounts where
  skippedTimeWindow : Nat := 0
  skippedDeleted : Nat := 0
  skippedNoKeyword : Nat := 0
  skippedNoSubreddit : Nat := 0
  skippedCrossPost : Nat := 0
  posts : List NormalizedPost := []
deriving DecidableEq, Repr

/-- One iteration of the `fetchSubredditNew` loop, updating counters or
appending the emitted post. -/
def stepChild (keywords : List String) (w : Window) (acc : FeedCounts)
    (child : RawPost) : FeedCounts :=
  match processPost keywords w child with
  | .skipTimeWindow => { acc with skippedTimeWindow := acc.skippedTimeWindow + 1 }
  | .skipDeleted => { acc with skippedDeleted := acc.skippedDeleted + 1 }
  | .skipNoKeyword => { acc with skippedNoKeyword := acc.skippedNoKeyword + 1 }
  | .skipNoSubreddit => { acc with skippedNoSubreddit := acc.skippedNoSubreddit + 1 }
  | .skipCrossPost => { acc with skippedCrossPost := acc.skippedCrossPost + 1 }
  | .emit p => { acc with posts := acc.posts ++ [p] }

/-- The `fetchSubredditNew` loop over the listing's children. -/
def processChildren (keywords : List String) (w : Window)
    (children : List RawPost) : FeedCounts :=
  children.foldl (stepChild keywords w) {}

/-- `deduplicateById`: keep the first post with each id, in order. -/
def dedupeGo (seen : List String) : List NormalizedPost → List NormalizedPost
  | [] => []
  | p :: ps =>
    if p.id ∈ seen then dedupeGo seen ps
    else p :: dedupeGo (p.id :: seen) ps

/-- `deduplicateById` as called by `fetchPosts`. -/
def deduplicateById (posts : List NormalizedPost) : List NormalizedPost :=
  dedupeGo [] posts

/-- The comparator `(a, b) => b.createdAt - a.createdAt` sorts newest first. -/
def newestFirst (a b : NormalizedPost) : Bool :=
  b.createdAt ≤ a.createdAt

/-- `fetchPosts`, modelled on the per-subreddit listings already fetched
(`batches`, one raw-post list per requested subreddit, in request order):
normalize and deduplicate keywords, filter each listing, concatenate,
deduplicate by id and sort newest first. -/
def fetchPosts (keywords : List String) (w : Window)
    (batches : List (List RawPost)) : List NormalizedPost :=
  let uniqueKeywords := deduplicateKeywords keywords
  let allPosts := (batches.map (fun children => (processChildren uniqueKeywords w children).posts)).flatten
  (deduplicateById allPosts).mergeSort newestFirst

/-! ## Rate limiter (`rateLimiter.ts`, `HttpRateLimiter`) -/

/-- `HttpRateLimiter`'s mutable fields. -/
structure LimiterState where
  platform : String
  requests : Nat
  lastReset : Int
  blockedSubreddits : List String
  blockedKeywords : List String
  totalRequestsThisRun : Nat
  runStartTime : Int
  lastRateLimitTime : Int
  rateLimitBackoffMs : Int
deriving DecidableEq, Repr

/-- Constructor state of `HttpRateLimiter` at time `now`. -/
def LimiterState.init (platform : String) (now : Int) : LimiterState :=
  ⟨platform, 0, now, [], [], 0, 0, 0, 30000⟩

def windowMs : Int := 60000
def maxRequestsPerMinute : Nat := 30
def minRequestIntervalMs : Int := 2000
def maxRequestsPerRun : Nat := 30

/-- The action decided by `checkRequest`. -/
inductive RateAction where
  | cont
  | wait (waitMs : Int)
  | stop
deriving DecidableEq, Repr

/-- `resetRun`: zero the per-run counter, stamp the run start, clear both
blocklists. -/
def resetRun (st : LimiterState) (now : Int) : LimiterState :=
  { st with
    totalRequestsThisRun := 0
    runStartTime := now
    blockedSubreddits := []
    blockedKeywords := [] }

/-- JavaScript set membership guarded by truthiness of the key. -/
def blockedIn (key : Option String) (blocked : List String) : Bool :=
  match key with
  | some s => s ≠ "" && blocked.contains s
  | none => false

/-- `checkRequest`: run budget, blocklists, 429 backoff, rolling
one-minute window (reset in place when expired), then minimum spacing. -/
def checkRequest (st : LimiterState) (now : Int)
    (subreddit keyword : Option String) : LimiterState × RateAction :=
  if st.totalRequestsThisRun ≥ maxRequestsPerRun then (st, .stop)
  else if blockedIn subreddit st.blockedSubreddits then (st, .stop)
  else if blockedIn keyword st.blockedKeywords then (st, .stop)
  else if now - st.lastRateLimitTime < st.rateLimitBackoffMs then
    (st, .wait (st.rateLimitBackoffMs - (now - st.lastRateLimitTime)))
  else
    let st := if now - st.lastReset > windowMs
      then { st with requests := 0, lastReset := now } else st
    if st.requests ≥ maxRequestsPerMinute then
      (st, .wait (windowMs - (now - st.lastReset)))
    else if st.requests > 0 ∧ now - st.lastReset < minRequestIntervalMs then
      (st, .wait (minRequestIntervalMs - (now - st.lastReset)))
    else (st, .cont)

/-- JavaScript `Set.add`. -/
def addToSet (s : String) (l : List String) : List String :=
  if l.contains s then l else l ++ [s]

/-- `executeRequest` after the `fetch` resolved with HTTP status `status`
(counters incremented first; 403 blocks the subreddit, 429 arms the
backoff, a 2xx response resets the backoff to its base, anything else is
caught and returns null). The boolean is `true` iff the success path was
taken. -/
def executeRequest (st : LimiterState) (now : Int) (subreddit : Option String)
    (status : Nat) : LimiterState × Bool :=
  let st1 := { st with
    totalRequestsThisRun := st.totalRequestsThisRun + 1
    requests := st.requests + 1 }
  if status = 403 then
    (match subreddit with
      | some s => if s ≠ "" then { st1 with blockedSubreddits := addToSet s st1.blockedSubreddits } else st1
      | none => st1
    , false)
  else if status = 429 then
    ({ st1 with
        lastRateLimitTime := now
        rateLimitBackoffMs := min (st1.rateLimitBackoffMs * 2) 120000 }
    , false)
  else if 200 ≤ status ∧ status < 300 then
    ({ st1 with rateLimitBackoffMs := 30000 }, true)
  else (st1, false)

/-! ## Discovery runner (`runRedditDiscovery.ts`) -/

/-- A discovery request; the runner defends against absent lists. -/
structure DiscoveryRequest where
  source : String
  scheduleId : Option String := none
  runId : Option String := none
  keywords : Option (List String) := none
  subreddits : Option (List String) := none
  window : String
deriving DecidableEq, Repr

inductive RunStatus where
  | completed
  | failed
deriving DecidableEq, Repr

/-- The runner's result record. -/
structure DiscoveryResult where
  runId : Option String
  status : RunStatus
  postsFound : Nat
  error : Option String := none
deriving DecidableEq, Repr

/-- The validation prefix of `RedditDiscoveryRunner.run`: empty or missing
subreddits, then empty or missing keywords, each return a failed result
with a `null` runId before any other work. -/
def validateRequest (req : DiscoveryRequest) : Option DiscoveryResult :=
  if (req.subreddits.getD []) = [] then
    some ⟨none, .failed, 0, some "No subreddits provided - must specify subreddits in request"⟩
  else if (req.keywords.getD []) = [] then
    some ⟨none, .failed, 0, some "No keywords provided - must specify keywords in request"⟩
  else none

/-- `RedditDiscoveryRunner.run`, with everything after the validation
prefix abstracted as `proceed` (scraping, persistence and the effects they
perform, collected as an effect trace). A failed validation returns
immediately with an empty effect trace. -/
def runDiscovery (proceed : DiscoveryRequest → DiscoveryResult × List String)
    (req : DiscoveryRequest) : DiscoveryResult × List String :=
  match validateRequest req with
  | some r => (r, [])
  | none => proceed req

/-! ## Store writer (`insertPosts` and `isValidRedditItem`) -/

/-- Is `c` matched by `[a-z0-9]` under the `i` flag, given the input was
already lowercased? -/
def isAlnumLower (c : Char) : Bool := ('a' ≤ c ∧ c ≤ 'z') ∨ ('0' ≤ c ∧ c ≤ '9')

/-- Strip a literal prefix, or fail. -/
def dropPre : List Char → List Char → Option (List Char)
  | [], l => some l
  | _, [] => none
  | p :: ps, c :: cs => if p = c then dropPre ps cs else none

/-- Try `/reddit\.com\/r\/[^/]+\/comments\/[a-z0-9]+/` at one position of
the lowercased character list. -/
def permalinkShapeAt (l : List Char) : Bool :=
  match dropPre "reddit.com/r/".data l with
  | none => false
  | some rest =>
    match rest.takeWhile (fun c => c ≠ '/'), rest.dropWhile (fun c => c ≠ '/') with
    | [], _ => false
    | _ :: _, after =>
      match dropPre "/comments/".data after with
      | none => false
      | some tail =>
        match tail with
        | [] => false
        | c :: _ => isAlnumLower c

/-- `regex.test`: try every position. -/
def permalinkShapeFrom : List Char → Bool
  | [] => permalinkShapeAt []
  | c :: cs => permalinkShapeAt (c :: cs) || permalinkShapeFrom cs

/-- `/reddit\.com\/r\/[^/]+\/comments\/[a-z0-9]+/i.test(url)`. -/
def redditPermalinkTest (url : String) : Bool :=
  permalinkShapeFrom (jsToLower url).data

/-- `isValidRedditItem`: author must be truthy and not `"unknown"`, url
must be truthy, must not contain `/r/unknown`, and must look like a Reddit
post permalink (`reddit.com/r/<name>/comments/<id>`, case-insensitive);
the source's early-return chain is the conjunction of the four checks. -/
def isValidRedditItem (item : NormalizedPost) : Bool :=
  truthy item.author && !(item.author == some "unknown") && !(item.url == "")
    && !(jsIncludes item.url "/r/unknown") && redditPermalinkTest item.url

/-- The row built for one post in `insertPosts`, parameterized by the
hash function used for the content fingerprint (`md5` in the source). -/
structure StoredItem where
  run_id : String
  source_platform : String
  source_id : String
  title : String
  content : String
  author : Option String
  url : String
  created_at : Int
  content_hash : String
  dedup_key : String
  origin : String
  metaSubreddit : String
  metaScore : Int
  metaNumComments : Int
  matched_keywords : List String
deriving DecidableEq, Repr

/-- The pre-hash fingerprint input: content text, a `|` separator, then the
source id. -/
def hashInput (post : NormalizedPost) : String :=
  (post.content) ++ "|" ++ post.id

/-- Build the `normalized_items` row for one post. -/
def buildItem (hash : String → String) (runId : String) (post : NormalizedPost)
    (subreddit : String) : StoredItem :=
  let author0 : Option String := match post.author with
    | none => none
    | some a => if a = "" then none else some a
  let author := if author0 = some "unknown" then some "[deleted]" else author0
  { run_id := runId
    source_platform := "reddit"
    source_id := post.id
    title := post.title
    content := ⟨post.content.data.take 10000⟩
    author := author
    url := post.url
    created_at := post.createdAt
    content_hash := hash (hashInput post)
    dedup_key := "reddit_" ++ post.id
    origin := "local_scraper"
    metaSubreddit := subreddit
    metaScore := (post.raw.score).getD 0
    metaNumComments := (post.raw.numComments).getD 0
    matched_keywords := post.keywordsMatched }

/-- How `insertPosts` disposes of one post: the validation gate, the
subreddit-presence check, the url/subreddit consistency check, or an
attempted insert. -/
inductive InsertStep where
  | skipInvalid
  | skipNoSubreddit
  | skipUrlMismatch
  | attempt (item : StoredItem)
deriving DecidableEq, Repr

/-- The per-post decision logic of the `insertPosts` loop. -/
def classifyInsert (hash : String → String) (runId : String)
    (post : NormalizedPost) : InsertStep :=
  if ¬ isValidRedditItem post then .skipInvalid
  else
    match post.raw.subreddit with
    | none => .skipNoSubreddit
    | some subredditRaw =>
      if jsTrim subredditRaw = "" then .skipNoSubreddit
      else
        let subreddit := jsTrim (jsToLower subredditRaw)
        if ¬ jsIncludes (jsToLower post.url) ("/r/" ++ subreddit ++ "/") then .skipUrlMismatch
        else .attempt (buildItem hash runId post subreddit)

/-- Counters and attempted rows of `insertPosts`. -/
structure InsertCounts where
  successCount : Nat := 0
  skippedCount : Nat := 0
  attempted : List StoredItem := []
deriving DecidableEq, Repr

/-- One iteration of the `insertPosts` loop; `dbOk` models whether the
database accepted the row (an insert error is logged, not fatal). -/
def insertStep (hash : String → String) (dbOk : StoredItem → Bool) (runId : String)
    (acc : InsertCounts) (post : NormalizedPost) : InsertCounts :=
  match classifyInsert hash runId post with
  | .attempt item =>
    if dbOk item then
      { acc with successCount := acc.successCount + 1, attempted := acc.attempted ++ [item] }
    else
      { acc with attempted := acc.attempted ++ [item] }
  | _ => { acc with skippedCount := acc.skippedCount + 1 }

/-- The `insertPosts` loop. -/
def insertPosts (hash : String → String) (dbOk : StoredItem → Bool) (runId : String)
    (posts : List NormalizedPost) : InsertCounts :=
  posts.foldl (insertStep hash dbOk runId) {}

/-- Total number of raw posts accounted for by a `FeedCounts`. -/
def countsTotal (fc : FeedCounts) : Nat :=
  fc.skippedTimeWindow + fc.skippedDeleted + fc.skippedNoKeyword
    + fc.skippedNoSubreddit + fc.skippedCrossPost + fc.posts.length

/-! ## Supporting lemmas -/

theorem stepChild_total (keywords : List String) (w : Window) (acc : FeedCounts)
    (c : RawPost) :
    countsTotal (stepChild keywords w acc c) = countsTotal acc + 1 ∧
    (stepChild keywords w acc c).posts
      = acc.posts ++ ((processPost keywords w c).emitted).toList := by
  cases h : processPost keywords w c <;>
    simp [stepChild, h, Outcome.emitted, countsTotal] <;> omega

theorem foldl_stepChild_total (keywords : List String) (w : Window) :
    ∀ (children : List RawPost) (acc : FeedCounts),
      countsTotal (children.foldl (stepChild keywords w) acc)
        = countsTotal acc + children.length ∧
      (children.foldl (stepChild keywords w) acc).posts
        = acc.posts ++ children.filterMap (fun c => (processPost keywords w c).emitted)
  | [], acc => by simp
  | c :: cs, acc => by
    have h1 := stepChild_total keywords w acc c
    have h2 := foldl_stepChild_total keywords w cs (stepChild keywords w acc c)
    simp only [List.foldl_cons, List.filterMap_cons, List.length_cons]
    refine ⟨by rw [h2.1, h1.1]; omega, ?_⟩
    rw [h2.2, h1.2]
    cases hc : (processPost keywords w c).emitted <;> simp [hc]

/-! ## C2: each raw post has exactly one tagged outcome -/

/-- C2: every raw post examined by the `fetchSubredditNew` loop contributes
exactly one unit to exactly one of the five skip counters or exactly one
`NormalizedPost` to the output (the emitted posts are exactly the
`filterMap` of the per-post outcome over the listing, in order); outcomes
are the tagged constructors of `Outcome`, not exceptions, so no post is
both counted and emitted and none is dropped without a reason. -/
theorem admission_exactly_one_outcome (keywords : List String) (w : Window)
    (children : List RawPost) :
    countsTotal (processChildren keywords w children) = children.length ∧
    (processChildren keywords w children).posts
      = children.filterMap (fun c => (processPost keywords w c).emitted) := by
  have h := foldl_stepChild_total keywords w children {}
  unfold processChildren
  refine ⟨?_, ?_⟩
  · rw [h.1]; simp [countsTotal]
  · rw [h.2]; simp

/-! ## C1: cross-subreddit posts are rejected -/

/-- `processPost` with its `let` bindings inlined, for rewriting. -/
theorem processPost_def (keywords : List String) (w : Window) (post : RawPost) :
    processPost keywords w post =
      (if ¬ isWithinWindow (post.createdUtc * 1000) w = true then Outcome.skipTimeWindow
      else if post.selftext = some "[deleted]" ∨ post.title = "[deleted]"
          ∨ truthy post.removedByCategory = true then Outcome.skipDeleted
      else if List.filter (fun kw => jsIncludes (jsToLower post.title) (jsToLower kw)) keywords
          = [] then Outcome.skipNoKeyword
      else
        match (extractSubreddit post).subreddit with
        | none =>
          if (extractSubreddit post).isCrossPost = true then Outcome.skipCrossPost
          else Outcome.skipNoSubreddit
        | some extractedSubreddit =>
          Outcome.emit {
            id := post.id
            platform := "reddit"
            title := post.title
            content := post.selftext.getD ""
            url := "https://reddit.com" ++ optToStr post.permalink
            author := some (extractAuthor post)
            sourceContext := "r/" ++ extractedSubreddit
            createdAt := post.createdUtc * 1000
            keywordsMatched :=
              List.filter (fun kw => jsIncludes (jsToLower post.title) (jsToLower kw)) keywords
            raw := {
              score := some post.score
              numComments := some post.numComments
              subreddit := some extractedSubreddit } }) := rfl

/-- If extraction yields no subreddit, the loop cannot emit a post. -/
theorem processPost_no_emit_of_extract_none (keywords : List String) (w : Window)
    (post : RawPost) (h : (extractSubreddit post).subreddit = none) :
    (processPost keywords w post).isEmit = false := by
  rw [processPost_def, h]
  repeat' split <;> first | rfl | simp_all

/-- C1 (amended): under a permalink that parses to a community whose
normalization is nonempty, and a nonempty claimed subreddit field, a
normalization mismatch makes `extractSubreddit` report a cross-post and
prevents any `NormalizedPost` from being produced for the post, while a
normalization match never causes a cross-community rejection. -/
theorem crossPost_detection (post : RawPost) (pl seg s : String)
    (hpl : post.permalink = some pl)
    (hparse : parsePermalinkSeg pl = some seg)
    (hsegne : normalizeSubreddit seg ≠ "")
    (hs : post.subreddit = some s)
    (hsne : s ≠ "") :
    (normalizeSubreddit s ≠ normalizeSubreddit seg →
      extractSubreddit post = ⟨none, true⟩ ∧
      ∀ keywords w, (processPost keywords w post).isEmit = false) ∧
    (normalizeSubreddit s = normalizeSubreddit seg →
      (extractSubreddit post).isCrossPost = false ∧
      ∀ keywords w, processPost keywords w post ≠ .skipCrossPost) := by
  constructor
  · intro hmis
    have hex : extractSubreddit post = ⟨none, true⟩ := by
      unfold extractSubreddit
      rw [hpl]
      simp only [hparse, hs]
      rw [if_neg hsegne, if_pos hsne, if_pos hmis]
    exact ⟨hex, fun keywords w =>
      processPost_no_emit_of_extract_none keywords w post (by rw [hex])⟩
  · intro hmat
    have hex : extractSubreddit post = ⟨some (normalizeSubreddit seg), false⟩ := by
      unfold extractSubreddit
      rw [hpl]
      simp only [hparse, hs]
      rw [if_neg hsegne, if_pos hsne, if_neg (by simpa using hmat)]
    refine ⟨by rw [hex], fun keywords w => ?_⟩
    rw [processPost_def, hex]
    repeat' split <;> first | rfl | simp_all

/-- The concrete post of the C1 counterexample: the permalink parses to
`cursor` but the claimed subreddit field is the empty string, which
normalizes to a value different from `cursor`. -/
def c1Post : RawPost :=
  { id := "abc", title := "Cursor tips", selftext := none
    permalink := some "/r/cursor/comments/abc/", subreddit := some ""
    author := some "alice", createdUtc := 5, removedByCategory := none
    score := 3, numComments := 1 }

/-- The spec's own cross-post scenario: permalink community `cursor`,
claimed community `ClaudeAI`. -/
def c1MismatchPost : RawPost :=
  { id := "xyz", title := "Cursor tips", selftext := none
    permalink := some "/r/cursor/comments/xyz/", subreddit := some "ClaudeAI"
    author := some "alice", createdUtc := 5, removedByCategory := none
    score := 3, numComments := 1 }

/-- C1 witness: `crossPost_detection` at the spec's example scenario. -/
theorem crossPost_detection_witness :
    extractSubreddit c1MismatchPost = ⟨none, true⟩ ∧
    (processPost ["cursor"] ⟨0, 10000⟩ c1MismatchPost).isEmit = false :=
  have h := (crossPost_detection c1MismatchPost "/r/cursor/comments/xyz/" "cursor"
    "ClaudeAI" rfl (by decide) (by decide) rfl (by decide)).1 (by decide)
  ⟨h.1, h.2 ["cursor"] ⟨0, 10000⟩⟩

/-- C1 counterexample: a post whose permalink parses to community `cursor`
and whose claimed subreddit field (the empty string) normalizes to a
different value is NOT reported as a cross-post — `extractSubreddit`
returns the permalink community — and the post is emitted, contradicting
the claim as stated. -/
theorem crossPost_claim_counterexample :
    c1Post.permalink = some "/r/cursor/comments/abc/" ∧
    parsePermalinkSeg "/r/cursor/comments/abc/" = some "cursor" ∧
    c1Post.subreddit = some "" ∧
    normalizeSubreddit "" ≠ normalizeSubreddit "cursor" ∧
    extractSubreddit c1Post ≠ ⟨none, true⟩ ∧
    (processPost ["cursor"] ⟨0, 10000⟩ c1Post).isEmit = true := by decide

/-! ## C5: keyword check -/

theorem mem_collapseWSAux (c : Char) :
    ∀ (l : List Char) (b : Bool), c ∈ collapseWSAux b l → c = ' ' ∨ c ∈ l
  | [], b => by simp [collapseWSAux]
  | d :: cs, b => by
    intro h
    rw [collapseWSAux] at h
    split at h
    · split at h
      · rcases mem_collapseWSAux c cs true h with h' | h'
        · exact Or.inl h'
        · exact Or.inr (List.mem_cons_of_mem _ h')
      · rcases List.mem_cons.mp h with h' | h'
        · exact Or.inl h'
        · rcases mem_collapseWSAux c cs true h' with h'' | h''
          · exact Or.inl h''
          · exact Or.inr (List.mem_cons_of_mem _ h'')
    · rcases List.mem_cons.mp h with h' | h'
      · exact Or.inr (h' ▸ List.mem_cons_self d cs)
      · rcases mem_collapseWSAux c cs false h' with h'' | h''
        · exact Or.inl h''
        · exact Or.inr (List.mem_cons_of_mem _ h'')

theorem mem_collapseWS (c : Char) (l : List Char) (h : c ∈ collapseWS l) :
    c = ' ' ∨ c ∈ l :=
  mem_collapseWSAux c l false h

theorem mem_trimChars (c : Char) (l : List Char) (h : c ∈ trimChars l) : c ∈ l := by
  unfold trimChars at h
  rw [List.mem_reverse] at h
  have h1 := (List.dropWhile_sublist wsp).subset h
  rw [List.mem_reverse] at h1
  exact (List.dropWhile_sublist wsp).subset h1

/-- Every character of a normalized keyword is fixed by `Char.toLower`. -/
theorem normalizeKeyword_chars_lower (k : String) (c : Char)
    (h : c ∈ (normalizeKeyword k).data) : Char.toLower c = c := by
  unfold normalizeKeyword at h
  rcases mem_collapseWS c _ h with h' | h'
  · rw [h']; rfl
  · rcases List.mem_map.mp h' with ⟨d, hd, hdc⟩
    have hd' := mem_trimChars d _ hd
    rcases List.mem_map.mp hd' with ⟨e, _, hed⟩
    unfold underscoreHyphenToSpace at hdc
    split at hdc
    · rw [← hdc]; rfl
    · rw [← hdc, ← hed]
      exact char_toLower_idem e

/-- A normalized keyword is already lowercase. -/
theorem jsToLower_normalizeKeyword (k : String) :
    jsToLower (normalizeKeyword k) = normalizeKeyword k := by
  unfold jsToLower
  have : (normalizeKeyword k).data.map Char.toLower = (normalizeKeyword k).data := by
    rw [List.map_congr_left (fun c hc => normalizeKeyword_chars_lower k c hc)]
    exact List.map_id _
  rw [this]

theorem dedupKeywords_go_mem : ∀ (l : List String) (seen : List String) (x : String),
    x ∈ deduplicateKeywords.go seen l → x ∈ l
  | [], _, _ => by simp [deduplicateKeywords.go]
  | kw :: rest, seen, x => by
    intro h
    rw [deduplicateKeywords.go] at h
    split at h
    · exact List.mem_cons_of_mem _ (dedupKeywords_go_mem rest seen x h)
    · rcases List.mem_cons.mp h with h' | h'
      · exact h' ▸ List.mem_cons_self kw rest
      · exact List.mem_cons_of_mem _ (dedupKeywords_go_mem rest (kw :: seen) x h')

/-- Deduplicated keywords are normalized keywords, hence already lowercase. -/
theorem jsToLower_of_mem_dedup (keywords : List String) (kw : String)
    (h : kw ∈ deduplicateKeywords keywords) : jsToLower kw = kw := by
  have h1 := dedupKeywords_go_mem _ _ _ h
  rcases List.mem_map.mp h1 with ⟨k, _, hk⟩
  rw [← hk]
  exact jsToLower_normalizeKeyword k

/-- C5: for a post that survives the time-window and tombstone checks, the
keyword check passes iff some keyword of the normalized, de-duplicated
keyword list is a substring of the lowercased title; the emitted post's
`keywordsMatched` is exactly the matching sublist, and a post with no
matching keyword is rejected as no-match. -/
theorem keyword_match_spec (keywords : List String) (w : Window) (post : RawPost)
    (hwin : isWithinWindow (post.createdUtc * 1000) w = true)
    (hdel : ¬(post.selftext = some "[deleted]" ∨ post.title = "[deleted]"
      ∨ truthy post.removedByCategory = true)) :
    (processPost (deduplicateKeywords keywords) w post ≠ Outcome.skipNoKeyword
      ↔ ∃ kw ∈ deduplicateKeywords keywords,
          jsIncludes (jsToLower post.title) kw = true) ∧
    (∀ np, processPost (deduplicateKeywords keywords) w post = Outcome.emit np →
      np.keywordsMatched
        = (deduplicateKeywords keywords).filter
            (fun kw => jsIncludes (jsToLower post.title) kw)) := by
  have hcong : (deduplicateKeywords keywords).filter
        (fun kw => jsIncludes (jsToLower post.title) (jsToLower kw))
      = (deduplicateKeywords keywords).filter
        (fun kw => jsIncludes (jsToLower post.title) kw) :=
    List.filter_congr (fun kw hkw => by rw [jsToLower_of_mem_dedup keywords kw hkw])
  rw [processPost_def, if_neg (by simp [hwin]), if_neg hdel, hcong]
  by_cases hfil : (deduplicateKeywords keywords).filter
      (fun kw => jsIncludes (jsToLower post.title) kw) = []
  · rw [if_pos hfil]
    constructor
    · constructor
      · intro h
        exact absurd rfl h
      · rintro ⟨kw, hkw, hinc⟩
        exact absurd hinc (by simpa using List.filter_eq_nil_iff.mp hfil kw hkw)
    · intro np h
      exact Outcome.noConfusion h
  · rw [if_neg hfil]
    have hx : ∃ kw ∈ deduplicateKeywords keywords,
        jsIncludes (jsToLower post.title) kw = true := by
      have h2 := mt (List.filter_eq_nil_iff).mpr hfil
      push_neg at h2
      simpa using h2
    constructor
    · constructor
      · intro _
        exact hx
      · intro _
        cases hext : (extractSubreddit post).subreddit <;> simp only [hext]
        · split <;> simp
        · simp
    · intro np h
      cases hext : (extractSubreddit post).subreddit <;> simp only [hext] at h
      · split at h <;> exact Outcome.noConfusion h
      · have := Outcome.emit.inj h
        rw [← this]

/-- Concrete post for the C5 witness: the claim's example title. -/
def aiPost : RawPost :=
  { id := "xyz", title := "AI-powered app", selftext := none
    permalink := some "/r/cursor/comments/xyz/", subreddit := some "cursor"
    author := some "alice", createdUtc := 5, removedByCategory := none
    score := 0, numComments := 0 }

/-- C5 witness: `keyword_match_spec` instantiated at keyword `ai` and the
claim's example title `AI-powered app`. -/
theorem keyword_match_spec_witness :
    (processPost (deduplicateKeywords ["ai"]) ⟨0, 10000⟩ aiPost ≠ Outcome.skipNoKeyword
      ↔ ∃ kw ∈ deduplicateKeywords ["ai"],
          jsIncludes (jsToLower aiPost.title) kw = true) ∧
    (∀ np, processPost (deduplicateKeywords ["ai"]) ⟨0, 10000⟩ aiPost = Outcome.emit np →
      np.keywordsMatched
        = (deduplicateKeywords ["ai"]).filter
            (fun kw => jsIncludes (jsToLower aiPost.title) kw)) :=
  keyword_match_spec ["ai"] ⟨0, 10000⟩ aiPost (by decide) (by decide)

/-! ## C10: fetchPosts output is id-unique and sorted newest first -/

theorem dedupeGo_not_seen : ∀ (l : List NormalizedPost) (seen : List String)
    (p : NormalizedPost), p ∈ dedupeGo seen l → p.id ∉ seen
  | [], _, _ => by simp [dedupeGo]
  | q :: ps, seen, p => by
    intro h
    rw [dedupeGo] at h
    split at h
    · exact dedupeGo_not_seen ps seen p h
    · rcases List.mem_cons.mp h with h' | h'
      · subst h'
        assumption
      · have := dedupeGo_not_seen ps (q.id :: seen) p h'
        exact fun hc => this (List.mem_cons_of_mem _ hc)

theorem dedupeGo_nodup : ∀ (l : List NormalizedPost) (seen : List String),
    ((dedupeGo seen l).map (fun p => p.id)).Nodup
  | [], _ => by simp [dedupeGo]
  | q :: ps, seen => by
    rw [dedupeGo]
    split
    · exact dedupeGo_nodup ps seen
    · rw [List.map_cons, List.nodup_cons]
      refine ⟨?_, dedupeGo_nodup ps (q.id :: seen)⟩
      intro hmem
      rcases List.mem_map.mp hmem with ⟨r, hr, hrq⟩
      exact dedupeGo_not_seen ps (q.id :: seen) r hr (hrq ▸ List.mem_cons_self _ _)

theorem dedupeGo_first : ∀ (l : List NormalizedPost) (seen : List String)
    (p : NormalizedPost), p ∈ dedupeGo seen l →
    l.find? (fun q => q.id == p.id) = some p
  | [], _, _ => by simp [dedupeGo]
  | q :: ps, seen, p => by
    intro h
    rw [dedupeGo] at h
    split at h
    · next hin =>
      have hfind := dedupeGo_first ps seen p h
      have hne : ¬(q.id == p.id) = true := by
        intro hq
        exact dedupeGo_not_seen ps seen p h (beq_iff_eq.mp hq ▸ hin)
      rw [List.find?_cons_of_neg (p := fun r => r.id == p.id) ps hne]
      exact hfind
    · next hnin =>
      rcases List.mem_cons.mp h with h' | h'
      · subst h'
        rw [List.find?_cons_of_pos (p := fun r => r.id == p.id) ps (by simp)]
      · have hfind := dedupeGo_first ps (q.id :: seen) p h'
        have hnotseen := dedupeGo_not_seen ps (q.id :: seen) p h'
        have hne : ¬(q.id == p.id) = true := by
          intro hq
          exact hnotseen (beq_iff_eq.mp hq ▸ List.mem_cons_self _ _)
        rw [List.find?_cons_of_neg (p := fun r => r.id == p.id) ps hne]
        exact hfind

theorem newestFirst_trans (a b c : NormalizedPost) :
    newestFirst a b → newestFirst b c → newestFirst a c := by
  unfold newestFirst
  intro h1 h2
  simp only [decide_eq_true_eq] at *
  omega

theorem newestFirst_total (a b : NormalizedPost) :
    newestFirst a b || newestFirst b a := by
  unfold newestFirst
  rcases Int.le_total b.createdAt a.createdAt with h | h <;> simp [h]

/-- C10: the list returned by `fetchPosts` has pairwise-distinct ids, each
returned post is the first post bearing its id in the concatenated fetch
order, and the list is sorted by `createdAt`, newest first. -/
theorem fetchPosts_unique_sorted (keywords : List String) (w : Window)
    (batches : List (List RawPost)) :
    ((fetchPosts keywords w batches).map (fun p => p.id)).Nodup ∧
    (fetchPosts keywords w batches).Pairwise
      (fun a b => b.createdAt ≤ a.createdAt) ∧
    (∀ p ∈ fetchPosts keywords w batches,
      ((batches.map (fun children =>
          (processChildren (deduplicateKeywords keywords) w children).posts)).flatten).find?
        (fun q => q.id == p.id) = some p) := by
  unfold fetchPosts
  refine ⟨?_, ?_, ?_⟩
  · have hperm := List.mergeSort_perm
      (deduplicateById ((batches.map (fun children =>
        (processChildren (deduplicateKeywords keywords) w children).posts)).flatten))
      newestFirst
    exact ((hperm.map (fun p => p.id)).nodup_iff).mpr (dedupeGo_nodup _ [])
  · have hs := List.sorted_mergeSort
      newestFirst_trans newestFirst_total
      (deduplicateById ((batches.map (fun children =>
        (processChildren (deduplicateKeywords keywords) w children).posts)).flatten))
    exact hs.imp (fun h => by simpa [newestFirst] using h)
  · intro p hp
    rw [List.mem_mergeSort] at hp
    exact dedupeGo_first _ [] p hp

/-! ## C6: 429 backoff -/

/-- A limiter state in backoff with its per-run budget exhausted. -/
def budgetOutState : LimiterState :=
  { platform := "reddit", requests := 0, lastReset := 0
    blockedSubreddits := [], blockedKeywords := []
    totalRequestsThisRun := 30, runStartTime := 0
    lastRateLimitTime := 5, rateLimitBackoffMs := 30000 }

/-- C6 counterexample: with the 429 backoff still in force (elapsed time 5
of 30000 ms), `checkRequest` does not return a wait for the remaining
time — the run-budget check preempts it and returns a stop. -/
theorem backoff_wait_claim_counterexample :
    (10 - budgetOutState.lastRateLimitTime < budgetOutState.rateLimitBackoffMs) ∧
    (checkRequest budgetOutState 10 none none).2
      ≠ RateAction.wait (budgetOutState.rateLimitBackoffMs
          - (10 - budgetOutState.lastRateLimitTime)) ∧
    (checkRequest budgetOutState 10 none none).2 = RateAction.stop := by decide

/-- C6 (amended): a 429 response doubles the backoff up to the 120000 ms
ceiling and stamps the rate-limit time; any 2xx response resets the backoff
to its 30000 ms base; and while the elapsed time since the last 429 is
smaller than the backoff — provided the per-run budget is not exhausted
and neither the subreddit nor the keyword is blocked — `checkRequest`
returns a wait for exactly the remaining time. -/
theorem backoff_behavior :
    (∀ (st : LimiterState) (now : Int) (sub : Option String),
      (executeRequest st now sub 429).1.rateLimitBackoffMs
        = min (st.rateLimitBackoffMs * 2) 120000 ∧
      (executeRequest st now sub 429).1.lastRateLimitTime = now) ∧
    (∀ (st : LimiterState) (now : Int) (sub : Option String) (status : Nat),
      200 ≤ status → status < 300 →
      (executeRequest st now sub status).1.rateLimitBackoffMs = 30000) ∧
    (∀ (st : LimiterState) (now : Int) (sub kw : Option String),
      st.totalRequestsThisRun < maxRequestsPerRun →
      blockedIn sub st.blockedSubreddits = false →
      blockedIn kw st.blockedKeywords = false →
      now - st.lastRateLimitTime < st.rateLimitBackoffMs →
      (checkRequest st now sub kw).2
        = RateAction.wait (st.rateLimitBackoffMs - (now - st.lastRateLimitTime))) := by
  refine ⟨?_, ?_, ?_⟩
  · intro st now sub
    unfold executeRequest
    rw [if_neg (by omega), if_pos rfl]
    exact ⟨rfl, rfl⟩
  · intro st now sub status h1 h2
    unfold executeRequest
    rw [if_neg (by omega), if_neg (by omega), if_pos ⟨h1, h2⟩]
  · intro st now sub kw hbudget hsub hkw hback
    unfold checkRequest
    rw [if_neg (by omega), if_neg (by simp [hsub]), if_neg (by simp [hkw]),
      if_pos hback]

/-- A limiter state in backoff with budget available, for the C6 witness. -/
def inBackoffState : LimiterState :=
  { platform := "reddit", requests := 0, lastReset := 0
    blockedSubreddits := [], blockedKeywords := []
    totalRequestsThisRun := 3, runStartTime := 0
    lastRateLimitTime := 5, rateLimitBackoffMs := 30000 }

/-- C6 witness: the three parts of `backoff_behavior` at concrete states. -/
theorem backoff_behavior_witness :
    ((executeRequest inBackoffState 50 none 429).1.rateLimitBackoffMs
        = min (inBackoffState.rateLimitBackoffMs * 2) 120000 ∧
      (executeRequest inBackoffState 50 none 429).1.lastRateLimitTime = 50) ∧
    (executeRequest inBackoffState 50 none 200).1.rateLimitBackoffMs = 30000 ∧
    (checkRequest inBackoffState 10 none none).2
      = RateAction.wait (inBackoffState.rateLimitBackoffMs
          - (10 - inBackoffState.lastRateLimitTime)) :=
  ⟨backoff_behavior.1 inBackoffState 50 none,
    backoff_behavior.2.1 inBackoffState 50 none 200 (by decide) (by decide),
    backoff_behavior.2.2 inBackoffState 10 none none (by decide) (by decide)
      (by decide) (by decide)⟩

/-! ## C9: resetRun frame -/

/-- C9 counterexample: `resetRun` does change a field other than the run
counter and the blocklists — the run start timestamp is stamped with the
current time, so it does not retain its prior value. -/
theorem resetRun_claim_counterexample :
    (resetRun budgetOutState 7).runStartTime ≠ budgetOutState.runStartTime := by decide

/-- C9 (amended): `resetRun` zeroes the per-run request counter, empties
both blocklists and stamps the run start time with the current time;
every other field — platform, the rolling window counter and its reset
time, the last-rate-limit timestamp and the 429 backoff duration — keeps
its prior value, so a backoff in force before the reset still makes
`checkRequest` wait for the remaining time afterwards. -/
theorem resetRun_frame (st : LimiterState) (now : Int) :
    (resetRun st now).totalRequestsThisRun = 0 ∧
    (resetRun st now).blockedSubreddits = [] ∧
    (resetRun st now).blockedKeywords = [] ∧
    (resetRun st now).runStartTime = now ∧
    (resetRun st now).platform = st.platform ∧
    (resetRun st now).requests = st.requests ∧
    (resetRun st now).lastReset = st.lastReset ∧
    (resetRun st now).lastRateLimitTime = st.lastRateLimitTime ∧
    (resetRun st now).rateLimitBackoffMs = st.rateLimitBackoffMs ∧
    (∀ now2 : Int, now2 - st.lastRateLimitTime < st.rateLimitBackoffMs →
      (checkRequest (resetRun st now) now2 none none).2
        = RateAction.wait (st.rateLimitBackoffMs - (now2 - st.lastRateLimitTime))) := by
  refine ⟨rfl, rfl, rfl, rfl, rfl, rfl, rfl, rfl, rfl, ?_⟩
  intro now2 hback
  unfold checkRequest resetRun
  rw [if_neg (by simp [maxRequestsPerRun]), if_neg (by simp [blockedIn]),
    if_neg (by simp [blockedIn]), if_pos (by simpa using hback)]

/-- C9 witness: `resetRun_frame` at a concrete in-backoff state, showing in
particular that the pre-reset backoff still causes a wait. -/
theorem resetRun_frame_witness :
    (resetRun budgetOutState 7).totalRequestsThisRun = 0 ∧
    (resetRun budgetOutState 7).rateLimitBackoffMs = budgetOutState.rateLimitBackoffMs ∧
    (checkRequest (resetRun budgetOutState 7) 10 none none).2
      = RateAction.wait (budgetOutState.rateLimitBackoffMs
          - (10 - budgetOutState.lastRateLimitTime)) :=
  ⟨(resetRun_frame budgetOutState 7).1,
    (resetRun_frame budgetOutState 7).2.2.2.2.2.2.2.2.1,
    (resetRun_frame budgetOutState 7).2.2.2.2.2.2.2.2.2 10 (by decide)⟩

/-! ## C7: author resolution -/

/-- A raw post whose author is literally `unknown` — a legal Reddit
handle, and the failing input of C7. -/
def unknownAuthorPost : RawPost :=
  { id := "abc", title := "Cursor tips", selftext := none
    permalink := some "/r/cursor/comments/abc/", subreddit := some "cursor"
    author := some "unknown", createdUtc := 5, removedByCategory := none
    score := 3, numComments := 1 }

/-- C7: `extractAuthor` passes the literal author value through, so for a
source author equal to `unknown` the resulting author IS the generic
`unknown` placeholder, and the post is emitted with it — contradicting
both the claim and the function's own documentation (`Never returns
undefined or "unknown"`). -/
theorem extractAuthor_unknown_passthrough :
    extractAuthor unknownAuthorPost = "unknown" ∧
    ((processPost (deduplicateKeywords ["cursor"]) ⟨0, 10000⟩ unknownAuthorPost).emitted).map
      (fun np => np.author) = some (some "unknown") := ⟨rfl, rfl⟩

/-! ## C8: setup validation aborts the run -/

/-- C8: a request with an empty or missing keywords list, or an empty or
missing subreddits list, makes `run` return immediately with status
`failed`, zero posts, a null runId and a descriptive error message, with
no fetching or storage effects performed. -/
theorem run_validation_aborts (proceed : DiscoveryRequest → DiscoveryResult × List String)
    (req : DiscoveryRequest)
    (h : req.keywords.getD [] = [] ∨ req.subreddits.getD [] = []) :
    (runDiscovery proceed req).1.status = RunStatus.failed ∧
    (runDiscovery proceed req).1.postsFound = 0 ∧
    (runDiscovery proceed req).1.runId = none ∧
    (runDiscovery proceed req).1.error ≠ none ∧
    (runDiscovery proceed req).2 = [] := by
  unfold runDiscovery validateRequest
  by_cases hsub : req.subreddits.getD [] = []
  · rw [if_pos hsub]
    exact ⟨rfl, rfl, rfl, by simp, rfl⟩
  · rcases h with hkw | hsub'
    · rw [if_neg hsub, if_pos hkw]
      exact ⟨rfl, rfl, rfl, by simp, rfl⟩
    · exact absurd hsub' hsub

/-- A request with subreddits but no keywords, for the C8 witness. -/
def noKeywordsRequest : DiscoveryRequest :=
  { source := "manual", keywords := none, subreddits := some ["cursor"]
    window := "7d" }

/-- A stand-in for the rest of the run, for the C8 witness. -/
def proceedStub (_ : DiscoveryRequest) : DiscoveryResult × List String :=
  (⟨some "run-1", RunStatus.completed, 5, none⟩, ["fetch", "insert"])

/-- C8 witness: `run_validation_aborts` at a concrete keyword-less
request and a stand-in continuation that would have performed effects. -/
theorem run_validation_aborts_witness :
    (runDiscovery proceedStub noKeywordsRequest).1.status = RunStatus.failed ∧
    (runDiscovery proceedStub noKeywordsRequest).1.postsFound = 0 ∧
    (runDiscovery proceedStub noKeywordsRequest).1.runId = none ∧
    (runDiscovery proceedStub noKeywordsRequest).1.error ≠ none ∧
    (runDiscovery proceedStub noKeywordsRequest).2 = [] :=
  run_validation_aborts proceedStub noKeywordsRequest (Or.inl (by decide))

/-! ## C4: content fingerprint -/

/-- Appending after the fixed `|` separator is injective. -/
theorem bar_append_inj (a b : String) (h : "|" ++ a = "|" ++ b) : a = b := by
  have hd := congrArg String.data h
  have hda : ("|" ++ a).data = '|' :: a.data := rfl
  have hdb : ("|" ++ b).data = '|' :: b.data := rfl
  rw [hda, hdb] at hd
  exact String.ext (List.cons_injective hd)

/-- C4: the stored fingerprint is the hash of the content text, a `|`
separator, then the source id; for two posts with empty content and
distinct ids the pre-hash inputs differ, and under an injective
(collision-free) hash so do the stored fingerprints. -/
theorem fingerprint_distinct (hash : String → String) (runId : String)
    (p q : NormalizedPost) (sub1 sub2 : String)
    (hinj : Function.Injective hash)
    (hp : p.content = "") (hq : q.content = "") (hne : p.id ≠ q.id) :
    (buildItem hash runId p sub1).content_hash = hash (p.content ++ "|" ++ p.id) ∧
    hashInput p ≠ hashInput q ∧
    (buildItem hash runId p sub1).content_hash
      ≠ (buildItem hash runId q sub2).content_hash := by
  have hne' : hashInput p ≠ hashInput q := by
    intro heq
    unfold hashInput at heq
    rw [hp, hq] at heq
    exact hne (bar_append_inj p.id q.id (by simpa using heq))
  exact ⟨rfl, hne', fun hc => hne' (hinj hc)⟩

/-- Two concrete link-only posts (empty content, distinct ids) for the C4
witness. -/
def emptyPostA : NormalizedPost :=
  { id := "a1", title := "t", content := "", url := "https://reddit.com/r/x/comments/a1/s"
    author := some "alice", sourceContext := "r/x", createdAt := 1
    keywordsMatched := ["ai"], raw := {} }

def emptyPostB : NormalizedPost :=
  { id := "b2", title := "t", content := "", url := "https://reddit.com/r/x/comments/b2/s"
    author := some "bob", sourceContext := "r/x", createdAt := 2
    keywordsMatched := ["ai"], raw := {} }

/-- C4 witness: `fingerprint_distinct` with the identity as the
collision-free hash and two empty-content posts with distinct ids. -/
theorem fingerprint_distinct_witness :
    (buildItem id "run-1" emptyPostA "x").content_hash
      = id (emptyPostA.content ++ "|" ++ emptyPostA.id) ∧
    hashInput emptyPostA ≠ hashInput emptyPostB ∧
    (buildItem id "run-1" emptyPostA "x").content_hash
      ≠ (buildItem id "run-1" emptyPostB "x").content_hash :=
  fingerprint_distinct id "run-1" emptyPostA emptyPostB "x" "x"
    (fun _ _ h => h) rfl rfl (by decide)

/-! ## C3: pre-write validation gate -/

/-- The attempted row of an `InsertStep`, if any. -/
def InsertStep.attemptedItem : InsertStep → Option StoredItem
  | .attempt item => some item
  | _ => none

/-- The rejection conditions enumerated by C3: author missing or the
generic `unknown` placeholder, url missing, url containing `/r/unknown`,
or url not matching the Reddit permalink shape. -/
def storeRejectCond (post : NormalizedPost) : Prop :=
  post.author = none ∨ post.author = some "unknown" ∨ post.url = "" ∨
  jsIncludes post.url "/r/unknown" = true ∨ redditPermalinkTest post.url = false

theorem invalid_of_storeRejectCond (post : NormalizedPost)
    (h : storeRejectCond post) : isValidRedditItem post = false := by
  unfold isValidRedditItem
  rcases h with h | h | h | h | h <;> simp [h, truthy]

theorem classify_attempt_valid (hash : String → String) (runId : String)
    (post : NormalizedPost) (item : StoredItem)
    (h : classifyInsert hash runId post = InsertStep.attempt item) :
    isValidRedditItem post = true := by
  unfold classifyInsert at h
  split at h
  · exact InsertStep.noConfusion h
  · next hv => simpa using hv

theorem insertPosts_attempted (hash : String → String) (dbOk : StoredItem → Bool)
    (runId : String) : ∀ (posts : List NormalizedPost) (acc : InsertCounts),
    (posts.foldl (insertStep hash dbOk runId) acc).attempted
      = acc.attempted
        ++ posts.filterMap (fun p => (classifyInsert hash runId p).attemptedItem)
  | [], acc => by simp
  | p :: ps, acc => by
    rw [List.foldl_cons, List.filterMap_cons,
      insertPosts_attempted hash dbOk runId ps (insertStep hash dbOk runId acc p)]
    cases hc : classifyInsert hash runId p <;>
      simp [insertStep, hc, InsertStep.attemptedItem]
    split <;> simp

/-- C3: `insertPosts` never attempts a database insert for a post whose
author is missing or `unknown`, whose url is missing, contains
`/r/unknown`, or fails the Reddit permalink shape; each such post adds one
to the store-level skipped counter (a counter separate from the admission
pipeline's) and nothing to the success counter, and every attempted row
comes from a post that passed `isValidRedditItem`. -/
theorem store_validation_gate (hash : String → String) (dbOk : StoredItem → Bool)
    (runId : String) :
    (∀ post : NormalizedPost, storeRejectCond post →
      classifyInsert hash runId post = InsertStep.skipInvalid) ∧
    (∀ (acc : InsertCounts) (post : NormalizedPost), storeRejectCond post →
      insertStep hash dbOk runId acc post
        = { acc with skippedCount := acc.skippedCount + 1 }) ∧
    (∀ (posts : List NormalizedPost) (item : StoredItem),
      item ∈ (insertPosts hash dbOk runId posts).attempted →
      ∃ post ∈ posts, isValidRedditItem post = true ∧
        classifyInsert hash runId post = InsertStep.attempt item) := by
  have hclass : ∀ post : NormalizedPost, storeRejectCond post →
      classifyInsert hash runId post = InsertStep.skipInvalid := by
    intro post h
    unfold classifyInsert
    rw [if_pos (by simp [invalid_of_storeRejectCond post h])]
  refine ⟨hclass, ?_, ?_⟩
  · intro acc post h
    unfold insertStep
    rw [hclass post h]
  · intro posts item hmem
    unfold insertPosts at hmem
    rw [insertPosts_attempted hash dbOk runId posts {}] at hmem
    simp only [InsertCounts.attempted, List.nil_append] at hmem
    rcases List.mem_filterMap.mp hmem with ⟨post, hpost, hitem⟩
    refine ⟨post, hpost, ?_⟩
    cases hc : classifyInsert hash runId post <;> rw [hc] at hitem <;>
      simp [InsertStep.attemptedItem] at hitem
    exact ⟨classify_attempt_valid hash runId post _ hc, by rw [hitem]⟩


/-- A post rejected by the C3 gate: its author is missing. -/
def invalidStorePost : NormalizedPost :=
  { id := "x", title := "t", content := ""
    url := "https://reddit.com/r/cursor/comments/abc1/s", author := none
    sourceContext := "r/cursor", createdAt := 0, keywordsMatched := ["ai"]
    raw := { subreddit := some "cursor" } }

/-- A post accepted by the C3 gate. -/
def validStorePost : NormalizedPost :=
  { id := "y", title := "t", content := "hello"
    url := "https://reddit.com/r/cursor/comments/abc1/s", author := some "alice"
    sourceContext := "r/cursor", createdAt := 0, keywordsMatched := ["ai"]
    raw := { score := some 1, numComments := some 2, subreddit := some "cursor" } }

/-- C3 witness: the gate at a concrete author-less post (skipped, counted)
and a concrete valid post (attempted). -/
theorem store_validation_gate_witness :
    classifyInsert id "run-1" invalidStorePost = InsertStep.skipInvalid ∧
    insertStep id (fun _ => true) "run-1" {} invalidStorePost
      = { successCount := 0, skippedCount := 1, attempted := [] } ∧
    (∃ post ∈ [validStorePost], isValidRedditItem post = true ∧
      classifyInsert id "run-1" post
        = InsertStep.attempt (buildItem id "run-1" validStorePost "cursor")) :=
  ⟨(store_validation_gate id (fun _ => true) "run-1").1 invalidStorePost (Or.inl rfl),
    (store_validation_gate id (fun _ => true) "run-1").2.1 {} invalidStorePost (Or.inl rfl),
    (store_validation_gate id (fun _ => true) "run-1").2.2 [validStorePost]
      (buildItem id "run-1" validStorePost "cursor") (by decide)⟩

end LocalScrapper
